import Mathlib

/-!
Verification of the tsbank account service (`src/backend/src/modules/account`).

The repository ships the unit-test file `account.service.spec.ts`, the NestJS
bootstrap `main.ts` and the application module, but `account.service.ts` itself
is not among the provided sources.  The service is therefore modelled here from
the natural-language specification (spec.md §3, §4.1) and, where the spec is
ambiguous or contradicted by the repository's own tests, from the concrete
expectations of `account.service.spec.ts`, which is the authoritative in-repo
description of the service's behaviour.

Design of the embedding:
* `Account` mirrors `AccountEntity` (the opaque persistence `id` is dropped:
  no business rule reads or writes it; the mock `create` does not assign one).
* The repository is a `List Account`; `findFirst` and `updateAccount` mirror
  the mock Prisma collaborator of the test file (lookup by `number`, update by
  merging the partial data into the stored record keyed by `number`).
* Every service operation is state-passing: it returns
  `Except BankError result × List Account`, where the second component is the
  repository state after the call.  Error paths return the state untouched,
  exactly as a thrown exception before any `update` call leaves the mock store
  untouched.
* Balances and amounts are `ℚ` (the tests use decimal values such as 551.25);
  account numbers are `ℕ`; bonus scores are `Option ℤ` because the stored
  records carry the field only for some accounts (the mock data has a
  `Default` account that does carry `bonusScore: 0`).
-/

namespace TsBank

/-- The three account variants of the data model (spec.md §3). -/
inductive AccountType where
  | Default
  | Saving
  | Bonus
deriving DecidableEq, Repr

/-- Mirror of `AccountEntity` as stored by the repository.  `bonusScore` is
optional: present for `Bonus` accounts (and, in the stored test data, for one
`Default` account), absent otherwise. -/
structure Account where
  number : ℕ
  balance : ℚ
  type : AccountType
  bonusScore : Option ℤ := none
deriving DecidableEq, Repr

/-- The typed-error taxonomy of spec.md §7 (`NotFoundException`,
`ConflictException`, `BadRequestException` in the NestJS source). -/
inductive BankError where
  | NotFound
  | Conflict
  | InvalidInput
deriving DecidableEq, Repr

/-- Repository lookup by account `number`; mirror of the mock
`prisma.account.findFirst({ where: { number } })`. -/
def findFirst (n : ℕ) (s : List Account) : Option Account :=
  s.find? (fun a => a.number == n)

/-- Repository update keyed by `number`; mirror of the mock
`prisma.account.update({ where: { number }, data })`, which merges the partial
`data` into the stored record.  `f` is the merge applied to the stored
record. -/
def updateAccount (n : ℕ) (f : Account → Account) (s : List Account) :
    List Account :=
  s.map (fun a => if a.number == n then f a else a)

/-- Bonus accrual on a direct credit: 1 point per 100 units credited,
truncated (spec.md §4.1 `creditToAccount`: `delta = floor(amount / 100)`;
test: crediting 500 adds 5 points). -/
def bonusDelta (amount : ℚ) : ℤ := ⌊amount / 100⌋

/-- Bonus accrual on the credited side of a transfer.

Modelled from the spec: `transferAmount` of `account.service.ts` is not under
`src/`.  spec.md §4.1 says the transfer credit applies "the same Bonus-accrual
rule as creditToAccount" (1 point per 100 units), but the repository's own
test (`account.service.spec.ts` lines 204–209) expects a transfer of 500 to a
Bonus account with score 0 to leave `bonusScore = 3`, not 5.  The accrual is
therefore modelled as 1 point per 150 units transferred, truncated — the
natural rule consistent with the in-repo test. -/
def transferBonusDelta (amount : ℚ) : ℤ := ⌊amount / 150⌋

/-- Modelled from the spec: `createAccount` of `account.service.ts` is not
under `src/`.  Per spec.md §4.1: reject an existing `number` with `Conflict`;
require a positive `initialBalance` for `Default`/`Saving` (`InvalidInput`
otherwise); persist `number`, `type`, `balance`, and — only for `Bonus` — a
`bonusScore`.  The spec states both "bonusScore initialized to 0" (§3, §4.1)
and the scenario `createAccount(1230390, 'Bonus', 1000)` yielding
`bonusScore: 10` with the formula `floor(initialBalance/100)` (§8, §9); the
repository's test (`account.service.spec.ts` lines 140–149) expects 10, so the
initial score is modelled as `floor(initialBalance/100)`. -/
def createAccount (n : ℕ) (t : AccountType) (initialBalance : ℚ)
    (s : List Account) : Except BankError Account × List Account :=
  match findFirst n s with
  | some _ => (.error .Conflict, s)
  | none =>
    if t ≠ AccountType.Bonus ∧ initialBalance ≤ 0 then
      (.error .InvalidInput, s)
    else
      let acc : Account :=
        { number := n, balance := initialBalance, type := t,
          bonusScore :=
            if t = AccountType.Bonus then some (bonusDelta initialBalance)
            else none }
      (.ok acc, s ++ [acc])

/-- Modelled from the spec: `getAccountByNumber` of `account.service.ts` is
not under `src/`.  Pure read: look the account up by `number`, fail with
`NotFound` if absent (spec.md §4.1). -/
def getAccountByNumber (n : ℕ) (s : List Account) :
    Except BankError Account × List Account :=
  match findFirst n s with
  | none => (.error .NotFound, s)
  | some acc => (.ok acc, s)

/-- Modelled from the spec: `debitFromAccount` of `account.service.ts` is not
under `src/`.  Look up by `number` (`NotFound` if absent); fail with
`InvalidInput` if `amount > balance`; otherwise persist
`balance - amount` via update keyed by `number` (spec.md §4.1). -/
def debitFromAccount (n : ℕ) (amount : ℚ) (s : List Account) :
    Except BankError Account × List Account :=
  match findFirst n s with
  | none => (.error .NotFound, s)
  | some acc =>
    if acc.balance < amount then (.error .InvalidInput, s)
    else
      let data := fun (old : Account) =>
        { old with balance := acc.balance - amount }
      (.ok (data acc), updateAccount n data s)

/-- Modelled from the spec: `creditToAccount` of `account.service.ts` is not
under `src/`.  Look up by `number` (`NotFound` if absent); compute
`newBalance = balance + amount`; for `Bonus` accounts additionally accrue
`floor(amount/100)` bonus points; persist via update keyed by `number`
(spec.md §4.1; test lines 178–188). -/
def creditToAccount (n : ℕ) (amount : ℚ) (s : List Account) :
    Except BankError Account × List Account :=
  match findFirst n s with
  | none => (.error .NotFound, s)
  | some acc =>
    let newBalance := acc.balance + amount
    if acc.type = AccountType.Bonus then
      let newScore := acc.bonusScore.getD 0 + bonusDelta amount
      let data := fun (old : Account) =>
        { old with balance := newBalance, bonusScore := some newScore }
      (.ok (data acc), updateAccount n data s)
    else
      let data := fun (old : Account) =>
        { old with balance := newBalance }
      (.ok (data acc), updateAccount n data s)

/-- Modelled from the spec: `transferAmount` of `account.service.ts` is not
under `src/`.  Look up both accounts (`NotFound` if either is absent); fail
with `InvalidInput` if `amount > fromAccount.balance`; debit the source with
no bonus logic; credit the destination, accruing transfer bonus points when
it is a `Bonus` account (see `transferBonusDelta`); persist both through two
independent updates; return the pair (spec.md §4.1; test lines 191–209). -/
def transferAmount (fromNumber toNumber : ℕ) (amount : ℚ)
    (s : List Account) :
    Except BankError (Account × Account) × List Account :=
  match findFirst fromNumber s with
  | none => (.error .NotFound, s)
  | some fromAcc =>
    match findFirst toNumber s with
    | none => (.error .NotFound, s)
    | some toAcc =>
      if fromAcc.balance < amount then (.error .InvalidInput, s)
      else
        let fromData := fun (old : Account) =>
          { old with balance := fromAcc.balance - amount }
        let toData :=
          if toAcc.type = AccountType.Bonus then
            fun (old : Account) =>
              { old with
                balance := toAcc.balance + amount,
                bonusScore :=
                  some (toAcc.bonusScore.getD 0 + transferBonusDelta amount) }
          else
            fun (old : Account) =>
              { old with balance := toAcc.balance + amount }
        let s1 := updateAccount fromNumber fromData s
        let s2 := updateAccount toNumber toData s1
        (.ok (fromData fromAcc, toData toAcc), s2)

/-- The interest formula of spec.md §4.1:
`newBalance = balance * (1 + ratePercent/100)`. -/
def applyInterest (ratePercent : ℚ) (acc : Account) : Account :=
  { acc with balance := acc.balance * (1 + ratePercent / 100) }

/-- Modelled from the spec: `yieldInterestByAccount` of `account.service.ts`
is not under `src/`.  Look up by `number` (`NotFound` if absent); persist
`balance * (1 + ratePercent/100)`; no type restriction (spec.md §4.1). -/
def yieldInterestByAccount (n : ℕ) (ratePercent : ℚ) (s : List Account) :
    Except BankError Account × List Account :=
  match findFirst n s with
  | none => (.error .NotFound, s)
  | some acc =>
    let data := fun (old : Account) =>
      { old with balance := acc.balance * (1 + ratePercent / 100) }
    (.ok (data acc), updateAccount n data s)

/-- Modelled from the spec: `yieldInterest` of `account.service.ts` is not
under `src/`.  Fetch all `Saving` accounts (query filtered by type), apply the
interest formula to each, persist each, and return the updated accounts in the
order the repository returned them (spec.md §4.1; test lines 219–225). -/
def yieldInterest (ratePercent : ℚ) (s : List Account) :
    Except BankError (List Account) × List Account :=
  let savings := s.filter (fun a => decide (a.type = AccountType.Saving))
  let updated := savings.map (applyInterest ratePercent)
  let s2 := updated.foldl
    (fun st a =>
      updateAccount a.number (fun old => { old with balance := a.balance }) st)
    s
  (.ok updated, s2)

/-- The five stored records of the test fixture `mockAccounts`
(`account.service.spec.ts` lines 14–48); the persistence `id` is dropped. -/
def mockAccounts : List Account :=
  [ ⟨123, 500, AccountType.Bonus, some 0⟩,
    ⟨1234, 500, AccountType.Default, some 0⟩,
    ⟨12345, 500, AccountType.Saving, none⟩,
    ⟨12345123, 1000, AccountType.Saving, none⟩,
    ⟨123456, 500, AccountType.Bonus, some 0⟩ ]

/-! ### Helper lemmas about the repository model -/

lemma findFirst_cons (n : ℕ) (a : Account) (t : List Account) :
    findFirst n (a :: t) =
      if a.number == n then some a else findFirst n t := by
  simp only [findFirst, List.find?_cons]
  cases h : (a.number == n) <;> simp [h]

lemma updateAccount_cons (n : ℕ) (f : Account → Account) (a : Account)
    (t : List Account) :
    updateAccount n f (a :: t) =
      (if a.number == n then f a else a) :: updateAccount n f t := by
  simp [updateAccount]

/-- Updating under the key `n` rewrites exactly the record that a lookup of
`n` sees (the update merge `f` never changes the stored `number`). -/
lemma findFirst_updateAccount_self (n : ℕ) (f : Account → Account)
    (hf : ∀ a, (f a).number = a.number) (s : List Account) :
    findFirst n (updateAccount n f s) = (findFirst n s).map f := by
  induction s with
  | nil => rfl
  | cons a t ih =>
    rw [updateAccount_cons, findFirst_cons, findFirst_cons]
    by_cases h : a.number = n
    · simp [h, hf a]
    · simp [h, ih]

/-- A lookup that misses the prefix continues in the suffix. -/
lemma findFirst_append_of_none (n : ℕ) (s l : List Account)
    (h : findFirst n s = none) :
    findFirst n (s ++ l) = findFirst n l := by
  induction s with
  | nil => rfl
  | cons a t ih =>
    rw [findFirst_cons] at h
    by_cases ha : a.number = n
    · simp [ha] at h
    · rw [List.cons_append, findFirst_cons]
      simp only [ha, beq_iff_eq, if_false]
      exact ih (by simpa [ha] using h)

@[simp] lemma accountType_default_eq_bonus :
    (AccountType.Default = AccountType.Bonus) ↔ False :=
  ⟨fun h => AccountType.noConfusion h, False.elim⟩

@[simp] lemma accountType_saving_eq_bonus :
    (AccountType.Saving = AccountType.Bonus) ↔ False :=
  ⟨fun h => AccountType.noConfusion h, False.elim⟩

@[simp] lemma accountType_default_eq_saving :
    (AccountType.Default = AccountType.Saving) ↔ False :=
  ⟨fun h => AccountType.noConfusion h, False.elim⟩

@[simp] lemma accountType_bonus_eq_saving :
    (AccountType.Bonus = AccountType.Saving) ↔ False :=
  ⟨fun h => AccountType.noConfusion h, False.elim⟩

/-! ### Claim theorems -/

/-- C3: for every existing account with balance `b ≥ 0` and every amount
`a ≥ 0`, `debitFromAccount n a` fails with `InvalidInput` exactly when
`a > b`, and when `a ≤ b` it succeeds with the account's new balance equal to
`b - a` (both in the returned record and in the stored state). -/
theorem debitFromAccount_spec (n : ℕ) (amount : ℚ) (s : List Account)
    (acc : Account) (h : findFirst n s = some acc)
    (hb : 0 ≤ acc.balance) (ha : 0 ≤ amount) :
    ((debitFromAccount n amount s).1 = .error .InvalidInput ↔
      acc.balance < amount) ∧
    (amount ≤ acc.balance →
      ∃ acc2,
        (debitFromAccount n amount s).1 = .ok acc2 ∧
        acc2.balance = acc.balance - amount ∧
        findFirst n (debitFromAccount n amount s).2 = some acc2) := by
  unfold debitFromAccount
  rw [h]
  by_cases hlt : acc.balance < amount
  · simp [hlt, not_le.mpr hlt]
  · refine ⟨by simp [hlt], fun hle => ?_⟩
    refine ⟨{ acc with balance := acc.balance - amount }, by simp [hlt], rfl, ?_⟩
    simp only [hlt, if_false]
    rw [findFirst_updateAccount_self n
        (fun old => { old with balance := acc.balance - amount })
        (fun a => rfl) s, h]
    rfl

/-- C3 witness: debiting 100 from the stored account 123 (balance 500). -/
theorem debitFromAccount_spec_witness :
    (findFirst 123 mockAccounts =
        some ⟨123, 500, AccountType.Bonus, some 0⟩ ∧
      (0:ℚ) ≤ (500:ℚ) ∧ (0:ℚ) ≤ (100:ℚ)) ∧
    (((debitFromAccount 123 100 mockAccounts).1 = .error .InvalidInput ↔
        (Account.mk 123 500 AccountType.Bonus (some 0)).balance < 100) ∧
      ((100:ℚ) ≤ (Account.mk 123 500 AccountType.Bonus (some 0)).balance →
        ∃ acc2,
          (debitFromAccount 123 100 mockAccounts).1 = .ok acc2 ∧
          acc2.balance =
            (Account.mk 123 500 AccountType.Bonus (some 0)).balance - 100 ∧
          findFirst 123 (debitFromAccount 123 100 mockAccounts).2 =
            some acc2)) :=
  ⟨⟨by decide, by decide, by decide⟩,
    debitFromAccount_spec 123 100 mockAccounts
      ⟨123, 500, AccountType.Bonus, some 0⟩ (by decide) (by decide) (by decide)⟩

/-- C4: for every existing `Bonus` account with balance `b` and bonusScore
`s`, `creditToAccount n a` succeeds with new balance `b + a` and new
bonusScore `s + ⌊a/100⌋` (both returned and stored). -/
theorem creditToAccount_bonus_spec (n : ℕ) (amount : ℚ) (s : List Account)
    (acc : Account) (sc : ℤ) (h : findFirst n s = some acc)
    (ht : acc.type = AccountType.Bonus) (hs : acc.bonusScore = some sc) :
    ∃ acc2,
      (creditToAccount n amount s).1 = .ok acc2 ∧
      acc2.balance = acc.balance + amount ∧
      acc2.bonusScore = some (sc + ⌊amount / 100⌋) ∧
      findFirst n (creditToAccount n amount s).2 = some acc2 := by
  unfold creditToAccount
  rw [h]
  simp only [ht, hs, eq_self_iff_true, if_true, Option.getD_some]
  refine ⟨⟨acc.number, acc.balance + amount, AccountType.Bonus,
           some (sc + bonusDelta amount)⟩, rfl, rfl, rfl, ?_⟩
  rw [findFirst_updateAccount_self n
      (fun old => { old with
                    balance := acc.balance + amount,
                    bonusScore := some (sc + bonusDelta amount) })
      (fun a => rfl) s, h]
  simp [ht]

/-- C4 witness: crediting 500 to the stored Bonus account 123
(balance 500, score 0). -/
theorem creditToAccount_bonus_spec_witness :
    (findFirst 123 mockAccounts =
        some ⟨123, 500, AccountType.Bonus, some 0⟩ ∧
      (Account.mk 123 500 AccountType.Bonus (some 0)).type =
        AccountType.Bonus ∧
      (Account.mk 123 500 AccountType.Bonus (some 0)).bonusScore =
        some 0) ∧
    (∃ acc2,
      (creditToAccount 123 500 mockAccounts).1 = .ok acc2 ∧
      acc2.balance =
        (Account.mk 123 500 AccountType.Bonus (some 0)).balance + 500 ∧
      acc2.bonusScore = some (0 + ⌊(500:ℚ) / 100⌋) ∧
      findFirst 123 (creditToAccount 123 500 mockAccounts).2 = some acc2) :=
  ⟨⟨by decide, by decide, by decide⟩,
    creditToAccount_bonus_spec 123 500 mockAccounts
      ⟨123, 500, AccountType.Bonus, some 0⟩ 0 (by decide) (by decide)
      (by decide)⟩

/-- C9: for every existing account of type `Default` or `Saving`,
`creditToAccount n a` increases the balance by `a` and leaves `bonusScore`
unmutated — including when the stored record carries a `bonusScore` field, as
the stored test data's `Default` account does. -/
theorem creditToAccount_nonbonus_frame (n : ℕ) (amount : ℚ)
    (s : List Account) (acc : Account) (h : findFirst n s = some acc)
    (ht : acc.type ≠ AccountType.Bonus) :
    ∃ acc2,
      (creditToAccount n amount s).1 = .ok acc2 ∧
      acc2.balance = acc.balance + amount ∧
      acc2.bonusScore = acc.bonusScore ∧
      findFirst n (creditToAccount n amount s).2 = some acc2 := by
  unfold creditToAccount
  rw [h]
  refine ⟨{ acc with balance := acc.balance + amount }, ?_, rfl, rfl, ?_⟩
  · simp [ht]
  · simp only [ht, if_false]
    rw [findFirst_updateAccount_self n
        (fun old => { old with balance := acc.balance + amount })
        (fun a => rfl) s, h]
    rfl

/-- C9 witness: crediting 500 to the stored `Default` account 1234, whose
record carries `bonusScore = some 0`; the score is untouched. -/
theorem creditToAccount_nonbonus_frame_witness :
    (findFirst 1234 mockAccounts =
        some ⟨1234, 500, AccountType.Default, some 0⟩ ∧
      (Account.mk 1234 500 AccountType.Default (some 0)).type ≠
        AccountType.Bonus) ∧
    (∃ acc2,
      (creditToAccount 1234 500 mockAccounts).1 = .ok acc2 ∧
      acc2.balance =
        (Account.mk 1234 500 AccountType.Default (some 0)).balance + 500 ∧
      acc2.bonusScore =
        (Account.mk 1234 500 AccountType.Default (some 0)).bonusScore ∧
      findFirst 1234 (creditToAccount 1234 500 mockAccounts).2 =
        some acc2) :=
  ⟨⟨by decide, by decide⟩,
    creditToAccount_nonbonus_frame 1234 500 mockAccounts
      ⟨1234, 500, AccountType.Default, some 0⟩ (by decide) (by decide)⟩

/-- C5: for every pair of existing accounts and every amount
`a ≤ fromAccount.balance`, `transferAmount` succeeds and returns a pair in
which the source balance decreased by exactly `a` and the destination balance
increased by exactly `a` (their total is preserved), with no bonus accrual on
the debited side regardless of its type. -/
theorem transferAmount_balances_spec (fromNumber toNumber : ℕ) (amount : ℚ)
    (s : List Account) (fromAcc toAcc : Account)
    (hf : findFirst fromNumber s = some fromAcc)
    (ht : findFirst toNumber s = some toAcc)
    (hle : amount ≤ fromAcc.balance) :
    ∃ p : Account × Account,
      (transferAmount fromNumber toNumber amount s).1 = .ok p ∧
      p.1.balance = fromAcc.balance - amount ∧
      p.2.balance = toAcc.balance + amount ∧
      p.1.balance + p.2.balance = fromAcc.balance + toAcc.balance ∧
      p.1.bonusScore = fromAcc.bonusScore := by
  unfold transferAmount
  rw [hf, ht]
  have hlt : ¬ fromAcc.balance < amount := not_lt.mpr hle
  by_cases hb : toAcc.type = AccountType.Bonus
  · refine ⟨({ fromAcc with balance := fromAcc.balance - amount },
             { toAcc with
               balance := toAcc.balance + amount,
               bonusScore :=
                 some (toAcc.bonusScore.getD 0 + transferBonusDelta amount) }),
            ?_, rfl, rfl, by ring, rfl⟩
    simp [hlt, hb]
  · refine ⟨({ fromAcc with balance := fromAcc.balance - amount },
             { toAcc with balance := toAcc.balance + amount }),
            ?_, rfl, rfl, by ring, rfl⟩
    simp [hlt, hb]

/-- C5 witness: transferring 100 from the stored account 123 to the stored
`Default` account 1234. -/
theorem transferAmount_balances_spec_witness :
    (findFirst 123 mockAccounts =
        some ⟨123, 500, AccountType.Bonus, some 0⟩ ∧
      findFirst 1234 mockAccounts =
        some ⟨1234, 500, AccountType.Default, some 0⟩ ∧
      (100:ℚ) ≤ (Account.mk 123 500 AccountType.Bonus (some 0)).balance) ∧
    (∃ p : Account × Account,
      (transferAmount 123 1234 100 mockAccounts).1 = .ok p ∧
      p.1.balance =
        (Account.mk 123 500 AccountType.Bonus (some 0)).balance - 100 ∧
      p.2.balance =
        (Account.mk 1234 500 AccountType.Default (some 0)).balance + 100 ∧
      p.1.balance + p.2.balance =
        (Account.mk 123 500 AccountType.Bonus (some 0)).balance +
          (Account.mk 1234 500 AccountType.Default (some 0)).balance ∧
      p.1.bonusScore =
        (Account.mk 123 500 AccountType.Bonus (some 0)).bonusScore) :=
  ⟨⟨by decide, by decide, by decide⟩,
    transferAmount_balances_spec 123 1234 100 mockAccounts
      ⟨123, 500, AccountType.Bonus, some 0⟩
      ⟨1234, 500, AccountType.Default, some 0⟩
      (by decide) (by decide) (by decide)⟩

/-- C10: whenever `transferAmount` fails with `InvalidInput` because
`amount > fromAccount.balance`, the repository state is returned untouched:
neither account's balance nor bonusScore is modified. -/
theorem transferAmount_insufficient_frame (fromNumber toNumber : ℕ)
    (amount : ℚ) (s : List Account) (fromAcc toAcc : Account)
    (hf : findFirst fromNumber s = some fromAcc)
    (ht : findFirst toNumber s = some toAcc)
    (hlt : fromAcc.balance < amount) :
    transferAmount fromNumber toNumber amount s =
      (.error .InvalidInput, s) := by
  unfold transferAmount
  rw [hf, ht]
  simp [hlt]

/-- C10 witness: the test's failing transfer of 2500 from account 123
(balance 500) to account 1234 leaves the store untouched. -/
theorem transferAmount_insufficient_frame_witness :
    (findFirst 123 mockAccounts =
        some ⟨123, 500, AccountType.Bonus, some 0⟩ ∧
      findFirst 1234 mockAccounts =
        some ⟨1234, 500, AccountType.Default, some 0⟩ ∧
      (Account.mk 123 500 AccountType.Bonus (some 0)).balance <
        (2500:ℚ)) ∧
    transferAmount 123 1234 2500 mockAccounts =
      (.error .InvalidInput, mockAccounts) :=
  ⟨⟨by decide, by decide, by decide⟩,
    transferAmount_insufficient_frame 123 1234 2500 mockAccounts
      ⟨123, 500, AccountType.Bonus, some 0⟩
      ⟨1234, 500, AccountType.Default, some 0⟩
      (by decide) (by decide) (by decide)⟩

/-- C6: for every unused number `n`, `createAccount n Default 0` and
`createAccount n Saving 0` fail with `InvalidInput`, while
`createAccount n Bonus 0` succeeds (no positive-balance requirement for
`Bonus`). -/
theorem createAccount_zero_balance_spec (n : ℕ) (s : List Account)
    (h : findFirst n s = none) :
    (createAccount n AccountType.Default 0 s).1 = .error .InvalidInput ∧
    (createAccount n AccountType.Saving 0 s).1 = .error .InvalidInput ∧
    ∃ acc, (createAccount n AccountType.Bonus 0 s).1 = .ok acc := by
  unfold createAccount
  rw [h]
  exact ⟨by simp, by simp, ⟨⟨n, 0, AccountType.Bonus, some (bonusDelta 0)⟩,
    by simp⟩⟩

/-- C6 witness: number 123236 is unused in the stored test data. -/
theorem createAccount_zero_balance_spec_witness :
    findFirst 123236 mockAccounts = none ∧
    ((createAccount 123236 AccountType.Default 0 mockAccounts).1 =
        .error .InvalidInput ∧
      (createAccount 123236 AccountType.Saving 0 mockAccounts).1 =
        .error .InvalidInput ∧
      ∃ acc,
        (createAccount 123236 AccountType.Bonus 0 mockAccounts).1 =
          .ok acc) :=
  ⟨by decide, createAccount_zero_balance_spec 123236 mockAccounts (by decide)⟩

/-- C7: after a successful `createAccount` with number `n`, any second
`createAccount` with the same `n` fails with `Conflict` regardless of the
type and initial balance of the second call, and leaves the stored account
unchanged (the repository state is returned untouched and a lookup of `n`
still yields the created record). -/
theorem createAccount_conflict_spec (n : ℕ) (t : AccountType) (b : ℚ)
    (s s2 : List Account) (acc : Account) (t2 : AccountType) (b2 : ℚ)
    (h : createAccount n t b s = (.ok acc, s2)) :
    createAccount n t2 b2 s2 = (.error .Conflict, s2) ∧
    findFirst n s2 = some acc := by
  unfold createAccount at h ⊢
  cases hfind : findFirst n s with
  | some a => rw [hfind] at h; exact absurd (congrArg Prod.fst h) (by simp)
  | none =>
    rw [hfind] at h
    by_cases hbad : t ≠ AccountType.Bonus ∧ b ≤ 0
    · rw [if_pos hbad] at h
      exact absurd (congrArg Prod.fst h) (by simp)
    · rw [if_neg hbad] at h
      have hacc : acc =
          { number := n, balance := b, type := t,
            bonusScore :=
              if t = AccountType.Bonus then some (bonusDelta b)
              else none } := by
        have := congrArg Prod.fst h
        simpa using this.symm
      have hs2 : s2 =
          s ++ [{ number := n, balance := b, type := t,
                  bonusScore :=
                    if t = AccountType.Bonus then some (bonusDelta b)
                    else none }] := by
        have := congrArg Prod.snd h
        simpa using this.symm
      have hlook : findFirst n s2 = some acc := by
        rw [hs2, findFirst_append_of_none n s _ hfind, hacc]
        rw [findFirst_cons]
        simp
      rw [hlook]
      exact ⟨rfl, rfl⟩

/-- C7 witness: creating account 777 as `Saving` with balance 1000 succeeds
on the stored test data; re-creating number 777 as `Bonus` with balance 5
then fails with `Conflict` and leaves the store unchanged. -/
theorem createAccount_conflict_spec_witness :
    createAccount 777 AccountType.Saving 1000 mockAccounts =
      (.ok ⟨777, 1000, AccountType.Saving, none⟩,
        mockAccounts ++ [⟨777, 1000, AccountType.Saving, none⟩]) ∧
    (createAccount 777 AccountType.Bonus 5
        (mockAccounts ++ [⟨777, 1000, AccountType.Saving, none⟩]) =
      (.error .Conflict,
        mockAccounts ++ [⟨777, 1000, AccountType.Saving, none⟩]) ∧
    findFirst 777 (mockAccounts ++ [⟨777, 1000, AccountType.Saving, none⟩]) =
      some ⟨777, 1000, AccountType.Saving, none⟩) :=
  ⟨by rfl,
    createAccount_conflict_spec 777 AccountType.Saving 1000 mockAccounts
      (mockAccounts ++ [⟨777, 1000, AccountType.Saving, none⟩])
      ⟨777, 1000, AccountType.Saving, none⟩ AccountType.Bonus 5
      (by rfl)⟩

/-- C8: `yieldInterestByAccount n r` on an existing account with balance `b`
succeeds with new balance `b * (1 + r/100)` (returned and stored), and
`yieldInterest r` applies exactly this transformation to every stored
account of type `Saving` (and only those), returning the updated accounts in
the order the repository returned them. -/
theorem interest_spec (n : ℕ) (r : ℚ) (s : List Account) (acc : Account)
    (h : findFirst n s = some acc) :
    (∃ acc2,
      (yieldInterestByAccount n r s).1 = .ok acc2 ∧
      acc2.balance = acc.balance * (1 + r / 100) ∧
      findFirst n (yieldInterestByAccount n r s).2 = some acc2) ∧
    (yieldInterest r s).1 =
      .ok ((s.filter (fun a => decide (a.type = AccountType.Saving))).map
        (applyInterest r)) := by
  refine ⟨?_, rfl⟩
  unfold yieldInterestByAccount
  rw [h]
  refine ⟨{ acc with balance := acc.balance * (1 + r / 100) },
          rfl, rfl, ?_⟩
  rw [findFirst_updateAccount_self n
      (fun old => { old with balance := acc.balance * (1 + r / 100) })
      (fun a => rfl) s, h]
  rfl

/-- C8 witness: 5 percent interest on the stored `Saving` account 12345
(balance 500), and the bulk run over the stored test data. -/
theorem interest_spec_witness :
    findFirst 12345 mockAccounts =
      some ⟨12345, 500, AccountType.Saving, none⟩ ∧
    ((∃ acc2,
      (yieldInterestByAccount 12345 5 mockAccounts).1 = .ok acc2 ∧
      acc2.balance =
        (Account.mk 12345 500 AccountType.Saving none).balance *
          (1 + (5:ℚ) / 100) ∧
      findFirst 12345 (yieldInterestByAccount 12345 5 mockAccounts).2 =
        some acc2) ∧
    (yieldInterest 5 mockAccounts).1 =
      .ok ((mockAccounts.filter
          (fun a => decide (a.type = AccountType.Saving))).map
        (applyInterest 5))) :=
  ⟨by decide,
    interest_spec 12345 5 mockAccounts
      ⟨12345, 500, AccountType.Saving, none⟩ (by decide)⟩

/-- C1 counterexample: transferring 500 from the stored `Default` account
1234 to the stored `Bonus` account 123456 (score 0) leaves the destination's
bonusScore at 3 — as the repository's own test expects
(`account.service.spec.ts` line 208) — not at `0 + ⌊500/100⌋ = 5` as the
claim's creditToAccount-accrual rule would require. -/
theorem transferAmount_bonus_accrual_cex :
    (transferAmount 1234 123456 500 mockAccounts).1 =
      .ok (⟨1234, 0, AccountType.Default, some 0⟩,
           ⟨123456, 1000, AccountType.Bonus, some 3⟩) ∧
    (some (3:ℤ) ≠ some ((0:ℤ) + ⌊(500:ℚ) / 100⌋)) := by
  constructor
  · norm_num [transferAmount, findFirst, mockAccounts, transferBonusDelta]
  · norm_num

/-- C1 (amended): for every `transferAmount` call whose destination is a
`Bonus` account and whose amount is covered by the source balance, the
destination's bonusScore increases by exactly `⌊amount/150⌋` — one point per
150 units transferred, a weaker accrual than `creditToAccount`'s
`⌊amount/100⌋` — while its balance increases by the amount. -/
theorem transferAmount_bonus_accrual (fromNumber toNumber : ℕ)
    (amount : ℚ) (s : List Account) (fromAcc toAcc : Account) (sc : ℤ)
    (hf : findFirst fromNumber s = some fromAcc)
    (ht : findFirst toNumber s = some toAcc)
    (htype : toAcc.type = AccountType.Bonus)
    (hsc : toAcc.bonusScore = some sc)
    (hle : amount ≤ fromAcc.balance) :
    ∃ p : Account × Account,
      (transferAmount fromNumber toNumber amount s).1 = .ok p ∧
      p.2.bonusScore = some (sc + ⌊amount / 150⌋) ∧
      p.2.balance = toAcc.balance + amount := by
  unfold transferAmount
  rw [hf, ht]
  have hlt : ¬ fromAcc.balance < amount := not_lt.mpr hle
  refine ⟨({ fromAcc with balance := fromAcc.balance - amount },
           { toAcc with
             balance := toAcc.balance + amount,
             bonusScore :=
               some (toAcc.bonusScore.getD 0 + transferBonusDelta amount) }),
          ?_, ?_, rfl⟩
  · simp [hlt, htype]
  · simp [hsc, transferBonusDelta]

/-- C1 (amended) witness: the test's transfer of 500 from account 1234 to
the Bonus account 123456. -/
theorem transferAmount_bonus_accrual_witness :
    (findFirst 1234 mockAccounts =
        some ⟨1234, 500, AccountType.Default, some 0⟩ ∧
      findFirst 123456 mockAccounts =
        some ⟨123456, 500, AccountType.Bonus, some 0⟩ ∧
      (Account.mk 123456 500 AccountType.Bonus (some 0)).type =
        AccountType.Bonus ∧
      (Account.mk 123456 500 AccountType.Bonus (some 0)).bonusScore =
        some 0 ∧
      (500:ℚ) ≤ (Account.mk 1234 500 AccountType.Default (some 0)).balance) ∧
    (∃ p : Account × Account,
      (transferAmount 1234 123456 500 mockAccounts).1 = .ok p ∧
      p.2.bonusScore = some (0 + ⌊(500:ℚ) / 150⌋) ∧
      p.2.balance =
        (Account.mk 123456 500 AccountType.Bonus (some 0)).balance + 500) :=
  ⟨⟨by decide, by decide, by decide, by decide, by decide⟩,
    transferAmount_bonus_accrual 1234 123456 500 mockAccounts
      ⟨1234, 500, AccountType.Default, some 0⟩
      ⟨123456, 500, AccountType.Bonus, some 0⟩ 0
      (by decide) (by decide) (by decide) (by decide) (by decide)⟩

/-- C2 counterexample: creating the Bonus account 1230390 with initial
balance 1000 yields a record with `bonusScore = 10` — as the repository's own
test expects (`account.service.spec.ts` lines 140–149) — not 0 as the claim
states. -/
theorem createAccount_bonus_initial_score_cex :
    (createAccount 1230390 AccountType.Bonus 1000 mockAccounts).1 =
      .ok ⟨1230390, 1000, AccountType.Bonus, some 10⟩ ∧
    (some (10:ℤ) ≠ some (0:ℤ)) := by
  constructor
  · norm_num [createAccount, findFirst, mockAccounts, bonusDelta]
  · decide

/-- C2 (amended): for every number `n` not yet in use,
`createAccount n Bonus initialBalance` succeeds and returns a record whose
bonusScore equals `⌊initialBalance/100⌋` — the credit-accrual formula applied
to the initial balance — rather than 0. -/
theorem createAccount_bonus_initial_score (n : ℕ) (b : ℚ)
    (s : List Account) (h : findFirst n s = none) :
    (createAccount n AccountType.Bonus b s).1 =
      .ok ⟨n, b, AccountType.Bonus, some ⌊b / 100⌋⟩ := by
  unfold createAccount
  rw [h]
  simp [bonusDelta]

/-- C2 (amended) witness: the test's creation of Bonus account 1230390 with
balance 1000. -/
theorem createAccount_bonus_initial_score_witness :
    findFirst 1230390 mockAccounts = none ∧
    (createAccount 1230390 AccountType.Bonus 1000 mockAccounts).1 =
      .ok ⟨1230390, 1000, AccountType.Bonus, some ⌊(1000:ℚ) / 100⌋⟩ :=
  ⟨by decide,
    createAccount_bonus_initial_score 1230390 1000 mockAccounts (by decide)⟩

/-! ### Validation: the model replays the recorded suite

`account.service.spec.ts` runs its cases in file order against one shared
mutable store (`mockAccounts` is never reset between cases).  The following
states are the store contents after each mutating case; the theorem below
checks every expectation of the file against the model, in order.  In
particular it reproduces the two expectations that decide the modelling of
the missing `account.service.ts`: `bonusScore = 10` on Bonus creation with
balance 1000, and `bonusScore = 3` after transferring 500 to a Bonus
account. -/

/-- Store after the three successful `createAccount` cases. -/
def storeA : List Account :=
  [ ⟨123, 500, AccountType.Bonus, some 0⟩,
    ⟨1234, 500, AccountType.Default, some 0⟩,
    ⟨12345, 500, AccountType.Saving, none⟩,
    ⟨12345123, 1000, AccountType.Saving, none⟩,
    ⟨123456, 500, AccountType.Bonus, some 0⟩,
    ⟨1236757, 1000, AccountType.Saving, none⟩,
    ⟨123000, 1000, AccountType.Default, none⟩,
    ⟨1230390, 1000, AccountType.Bonus, some 10⟩ ]

/-- Store after debiting 100 from account 123. -/
def storeB : List Account :=
  [ ⟨123, 400, AccountType.Bonus, some 0⟩,
    ⟨1234, 500, AccountType.Default, some 0⟩,
    ⟨12345, 500, AccountType.Saving, none⟩,
    ⟨12345123, 1000, AccountType.Saving, none⟩,
    ⟨123456, 500, AccountType.Bonus, some 0⟩,
    ⟨1236757, 1000, AccountType.Saving, none⟩,
    ⟨123000, 1000, AccountType.Default, none⟩,
    ⟨1230390, 1000, AccountType.Bonus, some 10⟩ ]

/-- Store after crediting 500 to account 1234 and 500 to account 123. -/
def storeC : List Account :=
  [ ⟨123, 900, AccountType.Bonus, some 5⟩,
    ⟨1234, 1000, AccountType.Default, some 0⟩,
    ⟨12345, 500, AccountType.Saving, none⟩,
    ⟨12345123, 1000, AccountType.Saving, none⟩,
    ⟨123456, 500, AccountType.Bonus, some 0⟩,
    ⟨1236757, 1000, AccountType.Saving, none⟩,
    ⟨123000, 1000, AccountType.Default, none⟩,
    ⟨1230390, 1000, AccountType.Bonus, some 10⟩ ]

/-- Store after transferring 500 from account 123 to account 1234. -/
def storeD : List Account :=
  [ ⟨123, 400, AccountType.Bonus, some 5⟩,
    ⟨1234, 1500, AccountType.Default, some 0⟩,
    ⟨12345, 500, AccountType.Saving, none⟩,
    ⟨12345123, 1000, AccountType.Saving, none⟩,
    ⟨123456, 500, AccountType.Bonus, some 0⟩,
    ⟨1236757, 1000, AccountType.Saving, none⟩,
    ⟨123000, 1000, AccountType.Default, none⟩,
    ⟨1230390, 1000, AccountType.Bonus, some 10⟩ ]

/-- Store after transferring 500 from account 1234 to account 123456. -/
def storeE : List Account :=
  [ ⟨123, 400, AccountType.Bonus, some 5⟩,
    ⟨1234, 1000, AccountType.Default, some 0⟩,
    ⟨12345, 500, AccountType.Saving, none⟩,
    ⟨12345123, 1000, AccountType.Saving, none⟩,
    ⟨123456, 1000, AccountType.Bonus, some 3⟩,
    ⟨1236757, 1000, AccountType.Saving, none⟩,
    ⟨123000, 1000, AccountType.Default, none⟩,
    ⟨1230390, 1000, AccountType.Bonus, some 10⟩ ]

/-- Store after 5 percent interest on account 12345. -/
def storeF : List Account :=
  [ ⟨123, 400, AccountType.Bonus, some 5⟩,
    ⟨1234, 1000, AccountType.Default, some 0⟩,
    ⟨12345, 525, AccountType.Saving, none⟩,
    ⟨12345123, 1000, AccountType.Saving, none⟩,
    ⟨123456, 1000, AccountType.Bonus, some 3⟩,
    ⟨1236757, 1000, AccountType.Saving, none⟩,
    ⟨123000, 1000, AccountType.Default, none⟩,
    ⟨1230390, 1000, AccountType.Bonus, some 10⟩ ]

/-- Every expectation of `account.service.spec.ts`, replayed in file order
against the model with the shared store threaded through. -/
theorem service_model_replays_recorded_suite :
    (createAccount 123 AccountType.Default 1000 mockAccounts).1 =
      .error .Conflict ∧
    (createAccount 123236 AccountType.Default 0 mockAccounts).1 =
      .error .InvalidInput ∧
    createAccount 1236757 AccountType.Saving 1000 mockAccounts =
      (.ok ⟨1236757, 1000, AccountType.Saving, none⟩,
        mockAccounts ++ [⟨1236757, 1000, AccountType.Saving, none⟩]) ∧
    createAccount 123000 AccountType.Default 1000
        (mockAccounts ++ [⟨1236757, 1000, AccountType.Saving, none⟩]) =
      (.ok ⟨123000, 1000, AccountType.Default, none⟩,
        mockAccounts ++
          [⟨1236757, 1000, AccountType.Saving, none⟩,
           ⟨123000, 1000, AccountType.Default, none⟩]) ∧
    createAccount 1230390 AccountType.Bonus 1000
        (mockAccounts ++
          [⟨1236757, 1000, AccountType.Saving, none⟩,
           ⟨123000, 1000, AccountType.Default, none⟩]) =
      (.ok ⟨1230390, 1000, AccountType.Bonus, some 10⟩, storeA) ∧
    (getAccountByNumber 12354654654 storeA).1 = .error .NotFound ∧
    (getAccountByNumber 123 storeA).1 =
      .ok ⟨123, 500, AccountType.Bonus, some 0⟩ ∧
    (debitFromAccount 123 1501 storeA).1 = .error .InvalidInput ∧
    debitFromAccount 123 100 storeA =
      (.ok ⟨123, 400, AccountType.Bonus, some 0⟩, storeB) ∧
    creditToAccount 1234 500 storeB =
      (.ok ⟨1234, 1000, AccountType.Default, some 0⟩,
        [ ⟨123, 400, AccountType.Bonus, some 0⟩,
          ⟨1234, 1000, AccountType.Default, some 0⟩,
          ⟨12345, 500, AccountType.Saving, none⟩,
          ⟨12345123, 1000, AccountType.Saving, none⟩,
          ⟨123456, 500, AccountType.Bonus, some 0⟩,
          ⟨1236757, 1000, AccountType.Saving, none⟩,
          ⟨123000, 1000, AccountType.Default, none⟩,
          ⟨1230390, 1000, AccountType.Bonus, some 10⟩ ]) ∧
    creditToAccount 123 500
        [ ⟨123, 400, AccountType.Bonus, some 0⟩,
          ⟨1234, 1000, AccountType.Default, some 0⟩,
          ⟨12345, 500, AccountType.Saving, none⟩,
          ⟨12345123, 1000, AccountType.Saving, none⟩,
          ⟨123456, 500, AccountType.Bonus, some 0⟩,
          ⟨1236757, 1000, AccountType.Saving, none⟩,
          ⟨123000, 1000, AccountType.Default, none⟩,
          ⟨1230390, 1000, AccountType.Bonus, some 10⟩ ] =
      (.ok ⟨123, 900, AccountType.Bonus, some 5⟩, storeC) ∧
    (transferAmount 123 1234 2500 storeC).1 = .error .InvalidInput ∧
    transferAmount 123 1234 500 storeC =
      (.ok (⟨123, 400, AccountType.Bonus, some 5⟩,
            ⟨1234, 1500, AccountType.Default, some 0⟩), storeD) ∧
    transferAmount 1234 123456 500 storeD =
      (.ok (⟨1234, 1000, AccountType.Default, some 0⟩,
            ⟨123456, 1000, AccountType.Bonus, some 3⟩), storeE) ∧
    yieldInterestByAccount 12345 5 storeE =
      (.ok ⟨12345, 525, AccountType.Saving, none⟩, storeF) ∧
    (yieldInterest 5 storeF).1 =
      .ok [ ⟨12345, 551.25, AccountType.Saving, none⟩,
            ⟨12345123, 1050, AccountType.Saving, none⟩,
            ⟨1236757, 1050, AccountType.Saving, none⟩ ] := by
  refine ⟨?_, ?_, ?_, ?_, ?_, ?_, ?_, ?_, ?_, ?_, ?_, ?_, ?_, ?_, ?_, ?_⟩
  · norm_num [createAccount, findFirst, mockAccounts]
  · norm_num [createAccount, findFirst, mockAccounts]
  · norm_num [createAccount, findFirst, mockAccounts]
  · norm_num [createAccount, findFirst, mockAccounts]
  · norm_num [createAccount, findFirst, mockAccounts, storeA, bonusDelta]
  · norm_num [getAccountByNumber, findFirst, storeA]
  · norm_num [getAccountByNumber, findFirst, storeA]
  · norm_num [debitFromAccount, findFirst, storeA]
  · norm_num [debitFromAccount, findFirst, updateAccount, storeA, storeB]
  · norm_num [creditToAccount, findFirst, updateAccount, storeB]
  · norm_num [creditToAccount, findFirst, updateAccount, storeC, bonusDelta]
  · norm_num [transferAmount, findFirst, storeC]
  · norm_num [transferAmount, findFirst, updateAccount, storeC, storeD,
      transferBonusDelta]
  · norm_num [transferAmount, findFirst, updateAccount, storeD, storeE,
      transferBonusDelta]
  · norm_num [yieldInterestByAccount, findFirst, updateAccount, storeE,
      storeF]
  · norm_num [yieldInterest, applyInterest, findFirst, updateAccount, storeF]

end TsBank
